import Mathlib

/-!
Verification development for the cavos-service-native SDK.

The development shallowly embeds the client-side token-lifecycle and
request-dispatch logic of the `CavosWallet` class and the OAuth callback
handling of the `SignInWithApple` component.  Network responses, secure
storage and the biometric capability are modelled as an explicit
environment record; every wallet operation returns its result value, the
updated wallet state and the list of HTTP requests it dispatched.
-/

namespace Cavos

/-- Falsiness of a JS `string | null` value: `null` and the empty string
are falsy under the `!x` test used throughout the source. -/
def strFalsy : Option String → Bool
  | none => true
  | some s => s = ""

/-- Falsiness of a JS `number | null` value: `null` and `0` are falsy
under the `!x` test used throughout the source. -/
def numFalsy : Option Int → Bool
  | none => true
  | some n => n = 0

/-- The `AuthData` interface of `CavosWallet.ts`: token pair plus issue
metadata, with `expiresIn` in seconds and `timestamp` in milliseconds. -/
structure AuthData where
  accessToken : String
  refreshToken : String
  expiresIn : Int
  timestamp : Int
  user_id : String
  email : String
  org_id : String
deriving DecidableEq, Repr

/-- The `CavosWallet` instance state of `src/CavosWallet.ts`: five public
identity fields, the mutable token triple, and the organization secret. -/
structure Wallet where
  address : String
  network : String
  email : String
  user_id : String
  org_id : String
  accessToken : Option String
  refreshToken : Option String
  tokenExpiry : Option Int
  orgSecret : String
deriving DecidableEq, Repr

/-- `setAuthData`: copies the token pair into the instance and computes
`tokenExpiry = timestamp + expiresIn * 1000`. -/
def setAuthData (w : Wallet) (a : AuthData) : Wallet :=
  { w with
    accessToken := some a.accessToken
    refreshToken := some a.refreshToken
    tokenExpiry := some (a.timestamp + a.expiresIn * 1000) }

/-- `isTokenExpired`: true when `tokenExpiry` or `accessToken` is falsy,
otherwise true exactly when `Date.now() >= tokenExpiry - 300000`. -/
def isTokenExpired (w : Wallet) (now : Int) : Bool :=
  if numFalsy w.tokenExpiry || strFalsy w.accessToken then true
  else decide (now ≥ w.tokenExpiry.getD 0 - 300000)

end Cavos

namespace Cavos

/-- Helper fixture: a wallet with fixed identity fields and the given
token triple. -/
def withTokens (a : Option String) (r : Option String) (e : Option Int) : Wallet :=
  ⟨"0xaddr", "sepolia", "user@example.com", "auth0-u1", "org-1", a, r, e, "org-secret"⟩

end Cavos

namespace Cavos

/-- A single entry of the `calls` array sent to the execute endpoint. -/
structure Call where
  contractAddress : String
  entrypoint : String
  calldata : List String
deriving DecidableEq, Repr

/-- An HTTP request dispatched by the wallet, with the fields the source
puts in the Authorization header and the JSON body. -/
inductive Req where
  | refresh (bearer : String) (refresh_token : String)
  | executeSession (bearer : String) (address : String) (org_id : String)
      (calls : List Call) (network : String)
  | swapSession (bearer : String) (address : String) (org_id : String)
      (network : String) (amount : Int)
      (sellTokenAddress : String) (buyTokenAddress : String)
deriving DecidableEq, Repr

/-- Whether a request targets the token-refresh endpoint. -/
def Req.isRefresh : Req → Bool
  | .refresh _ _ => true
  | _ => false

/-- Body of a 2xx response from the refresh endpoint (`result.data`). -/
structure RefreshData where
  access_token : String
  refresh_token : String
  expires_in : Int
  user_id : String
  email : String
  org_id : String
deriving DecidableEq, Repr

/-- Outcome of a fetch to an execute-style endpoint: a 2xx response with
the expected JSON shape carrying the hash, a 2xx response whose body fails
to parse or lacks the expected nesting (the thrown message is caught), a
non-2xx response with its status and body text, or a transport error whose
message is caught. -/
inductive HttpResult where
  | ok (hash : String)
  | okBad (msg : String)
  | httpError (status : Nat) (body : String)
  | netError (msg : String)
deriving DecidableEq, Repr

/-- Content of the secure store under the key `cavos_auth_data`: absent,
present but failing to parse, or a parsed `AuthData` record. -/
inductive StoredData where
  | absent
  | corrupt
  | valid (a : AuthData)
deriving DecidableEq, Repr

/-- Environment of one wallet operation: the clock, the secure-store
content and failure modes, the refresh-endpoint outcome (`none` covers a
non-2xx status, malformed JSON and transport errors, all of which the
source collapses to a `false` result), and the execute/swap outcomes. -/
structure Env where
  now : Int
  stored : StoredData
  storeThrows : Bool
  deleteThrows : Bool
  refreshHttp : Option RefreshData
  execHttp : HttpResult
  swapHttp : HttpResult
deriving Repr

/-- Result value of a wallet operation: the transaction hash the source
returns on success, or the `error` field of the returned object. -/
inductive ExecResult where
  | txHash (h : String)
  | error (msg : String)
deriving DecidableEq, Repr

/-- `storeAuthData`: persists the record (which may throw) and only then
copies it into the instance via `setAuthData`. -/
def storeAuthData (w : Wallet) (env : Env) (a : AuthData) : Except String Wallet :=
  if env.storeThrows then .error "Failed to store authentication data securely"
  else .ok (setAuthData w a)

/-- The `AuthData` record `refreshAccessToken` builds from a 2xx refresh
response, stamping `timestamp = Date.now()`. -/
def authDataOfRefresh (r : RefreshData) (now : Int) : AuthData :=
  { accessToken := r.access_token
    refreshToken := r.refresh_token
    expiresIn := r.expires_in
    timestamp := now
    user_id := r.user_id
    email := r.email
    org_id := r.org_id }

/-- Application of the refresh-endpoint response inside
`refreshAccessToken`: a 2xx response is stored (a storage throw is caught
and yields `false`); any failure yields `false` with the state unchanged. -/
def applyRefreshResponse (w : Wallet) (env : Env) : Bool × Wallet :=
  match env.refreshHttp with
  | some r =>
      match storeAuthData w env (authDataOfRefresh r env.now) with
      | .ok w2 => (true, w2)
      | .error _ => (false, w)
  | none => (false, w)

/-- `refreshAccessToken`: returns `false` without any request when the
refresh token is falsy; otherwise posts the current refresh token with a
`Bearer orgSecret` header and applies the response. -/
def refreshAccessToken (w : Wallet) (env : Env) : Bool × Wallet × List Req :=
  if strFalsy w.refreshToken then (false, w, [])
  else
    let (ok, w2) := applyRefreshResponse w env
    (ok, w2, [Req.refresh w.orgSecret (w.refreshToken.getD "")])

/-- `getValidAccessToken`: refreshes when the token is expired; yields
`none` when the refresh fails, otherwise the instance access token. -/
def getValidAccessToken (w : Wallet) (env : Env) : Option String × Wallet × List Req :=
  if isTokenExpired w env.now then
    match refreshAccessToken w env with
    | (false, w2, reqs) => (none, w2, reqs)
    | (true, w2, reqs) => (w2.accessToken, w2, reqs)
  else (w.accessToken, w, [])

/-- Normalization of an execute-style fetch outcome shared by `execute`,
`executeCalls` and `swap`: a non-2xx status yields the
`Error executing calls` message with status and body text; a 2xx response
is unwrapped to the transaction hash; thrown messages are returned in the
`error` field. -/
def dispatchOutcome (http : HttpResult) : ExecResult :=
  match http with
  | .ok h => .txHash h
  | .okBad m => .error m
  | .httpError s b => .error ("Error executing calls: " ++ toString s ++ " " ++ b)
  | .netError m => .error m

/-- The pre-flight shell the source repeats verbatim in `execute`,
`executeCalls` and `swap`: obtain a valid access token, short-circuit
with the authentication-required error when it is falsy, otherwise
dispatch the gateway request built from the token and the refreshed
instance, and normalize the response. -/
def authedDispatch (w : Wallet) (env : Env) (http : HttpResult)
    (mkReq : String → Wallet → Req) : ExecResult × Wallet × List Req :=
  let (tok, w2, reqs) := getValidAccessToken w env
  if strFalsy tok then
    (.error "Authentication required. Please login again.", w2, reqs)
  else
    (dispatchOutcome http, w2, reqs ++ [mkReq (tok.getD "") w2])

/-- `execute`: posts the single call to the execute endpoint. -/
def execute (w : Wallet) (env : Env)
    (contractAddress entryPoint : String) (calldata : List String) :
    ExecResult × Wallet × List Req :=
  authedDispatch w env env.execHttp (fun tok w2 =>
    Req.executeSession tok w2.address w2.org_id
      [⟨contractAddress, entryPoint, calldata⟩] w2.network)

/-- `executeCalls` (from the revision that pairs it with
`getValidAccessToken`): identical to `execute` but posting a
caller-supplied batch of calls. -/
def executeCalls (w : Wallet) (env : Env) (calls : List Call) :
    ExecResult × Wallet × List Req :=
  authedDispatch w env env.execHttp (fun tok w2 =>
    Req.executeSession tok w2.address w2.org_id calls w2.network)

/-- `swap`: same pre-flight as `execute`, posting to the swap endpoint. -/
def swap (w : Wallet) (env : Env)
    (amount : Int) (sellTokenAddress buyTokenAddress : String) :
    ExecResult × Wallet × List Req :=
  authedDispatch w env env.swapHttp (fun tok w2 =>
    Req.swapSession tok w2.address w2.org_id w2.network amount
      sellTokenAddress buyTokenAddress)

/-- `loadStoredAuthData`: a readable record is copied into the instance
and yields `true`; an absent record or a caught read/parse error yields
`false` with the state unchanged. -/
def loadStoredAuthData (w : Wallet) (env : Env) : Bool × Wallet :=
  match env.stored with
  | .valid a => (true, setAuthData w a)
  | _ => (false, w)

/-- `setAuthenticationData`: stores the record, propagating a storage
throw to the caller. -/
def setAuthenticationData (w : Wallet) (env : Env) (a : AuthData) :
    Except String Wallet :=
  storeAuthData w env a

/-- `logout`: deletes the persisted record and then nulls the three token
fields; a throwing delete skips the nulling (the error is only logged). -/
def logout (w : Wallet) (env : Env) : Wallet :=
  if env.deleteThrows then w
  else { w with accessToken := none, refreshToken := none, tokenExpiry := none }

/-- `isAuthenticated`: with a falsy in-memory access token the result is
that of `loadStoredAuthData`; otherwise the negation of `isTokenExpired`. -/
def isAuthenticated (w : Wallet) (env : Env) : Bool × Wallet :=
  if strFalsy w.accessToken then loadStoredAuthData w env
  else (!isTokenExpired w env.now, w)

/-- The object returned by `getWalletInfo`, whose `isAuthenticated` field
is the strict null test `this.accessToken !== null`. -/
structure WalletInfo where
  address : String
  network : String
  email : String
  user_id : String
  org_id : String
  isAuthenticated : Bool
deriving DecidableEq, Repr

/-- `getWalletInfo`: identity fields plus the strict null test on the
in-memory access token. -/
def getWalletInfo (w : Wallet) : WalletInfo :=
  { address := w.address
    network := w.network
    email := w.email
    user_id := w.user_id
    org_id := w.org_id
    isAuthenticated := w.accessToken.isSome }

/-- The object returned by `toJSON` in `src/CavosWallet.ts`: only the five
public identity fields. -/
structure WalletJSON where
  address : String
  network : String
  email : String
  user_id : String
  org_id : String
deriving DecidableEq, Repr

/-- `toJSON` of `src/CavosWallet.ts`. -/
def toJSON (w : Wallet) : WalletJSON :=
  { address := w.address
    network := w.network
    email := w.email
    user_id := w.user_id
    org_id := w.org_id }

/-- The identity fields of a wallet, as one tuple. -/
def identityOf (w : Wallet) : String × String × String × String × String :=
  (w.address, w.network, w.email, w.user_id, w.org_id)

end Cavos

namespace Cavos.V1

/-- The `CavosWallet` instance state of the biometric revision: all token
fields are plain strings and the secret is a public field. -/
structure Wallet where
  address : String
  network : String
  email : String
  user_id : String
  org_id : String
  accessToken : String
  refreshToken : String
  orgSecret : String
deriving DecidableEq, Repr

/-- Requests dispatched by the biometric revision; its refresh call sends
no Authorization header. -/
inductive Req where
  | refresh (refresh_token : String)
  | executeSession (bearer : String) (address : String) (org_id : String)
      (calls : List Call) (network : String)
  | swapSession (bearer : String) (address : String) (org_id : String)
      (network : String) (amount : Int)
      (sellTokenAddress : String) (buyTokenAddress : String)
deriving DecidableEq, Repr

/-- Environment of the biometric revision: the biometric capability
(hardware presence, enrollment, prompt outcome), the refresh outcome
(`none` covers non-2xx and transport errors) and the gateway outcomes. -/
structure Env where
  hasHardware : Bool
  isEnrolled : Bool
  promptSuccess : Bool
  refreshHttp : Option (String × String)
  execHttp : HttpResult
  swapHttp : HttpResult
deriving Repr

/-- The JS `a || b` idiom on strings: the right operand when the left is
empty. -/
def strOr (a b : String) : String :=
  if a = "" then b else a

/-- `requireBiometricAuth`: throws when hardware is absent or nothing is
enrolled, or when the authentication prompt does not succeed. -/
def requireBiometricAuth (env : Env) : Except String Unit :=
  if !env.hasHardware || !env.isEnrolled then
    .error "No biometric authentication available"
  else if !env.promptSuccess then
    .error "Biometric authentication failed"
  else .ok ()

/-- `refreshAccessToken` of the biometric revision: always posts the
current refresh token; a 2xx response installs the returned pair. -/
def refreshAccessToken (w : Wallet) (env : Env) : Bool × Wallet × List Req :=
  match env.refreshHttp with
  | some (a, r) => (true, { w with accessToken := a, refreshToken := r }, [.refresh w.refreshToken])
  | none => (false, w, [.refresh w.refreshToken])

/-- Shared tail of `execute` in the biometric revision: an unconditional
refresh whose boolean result is the guard, then the gateway dispatch with
the instance access token. -/
def executeAfterGate (w : Wallet) (env : Env)
    (contractAddress entryPoint : String) (calldata : List String) :
    ExecResult × Wallet × List Req :=
  let (ok, w2, reqs) := refreshAccessToken w env
  if !ok then
    (.error "Authentication required. Please login again.", w2, reqs)
  else
    (dispatchOutcome env.execHttp, w2,
      reqs ++ [Req.executeSession w2.accessToken w2.address w2.org_id
        [⟨contractAddress, entryPoint, calldata⟩] w2.network])

/-- `execute` of the biometric revision: when `bioAuth` is set, a thrown
biometric error is caught and returned as the error value before any
network activity; otherwise the refresh-then-dispatch tail runs. -/
def execute (w : Wallet) (env : Env)
    (contractAddress entryPoint : String) (calldata : List String)
    (bioAuth : Bool) : ExecResult × Wallet × List Req :=
  if bioAuth then
    match requireBiometricAuth env with
    | .error m => (.error (strOr m "Biometric authentication required."), w, [])
    | .ok () => executeAfterGate w env contractAddress entryPoint calldata
  else executeAfterGate w env contractAddress entryPoint calldata

/-- The object returned by `toJSON` in the biometric revision: the five
identity fields plus `orgSecret` and `accessToken`. -/
structure WalletJSON where
  address : String
  network : String
  email : String
  user_id : String
  org_id : String
  orgSecret : String
  accessToken : String
deriving DecidableEq, Repr

/-- `toJSON` of the biometric revision. -/
def toJSON (w : Wallet) : WalletJSON :=
  { address := w.address
    network := w.network
    email := w.email
    user_id := w.user_id
    org_id := w.org_id
    orgSecret := w.orgSecret
    accessToken := w.accessToken }

end Cavos.V1

namespace Cavos.Login

/-- The parsed `user_data` JSON payload of the OAuth callback URL, with
the sub-objects `wallet` and `authData` flattened into prefixed fields. -/
structure UserData where
  user_id : String
  email : String
  org_id : String
  wallet_address : String
  wallet_network : String
  auth_accessToken : String
  auth_refreshToken : String
  auth_expiresIn : Int
  auth_timestamp : Int
  auth_user_id : String
  auth_email : String
  auth_id : String
deriving DecidableEq, Repr

/-- Resolution of the system browser session: a success carries the
callback URL, modelled by its parsed query parameters in order; any
resolution type other than success or cancel is collapsed into `other`. -/
inductive BrowserResult where
  | success (queryParams : List (String × String))
  | cancel
  | other
deriving DecidableEq, Repr

/-- Outcome of one login attempt: the constructed wallet delivered to the
success callback, or the message of the error delivered to the error
callback. -/
inductive LoginOutcome where
  | success (w : Cavos.Wallet)
  | failure (msg : String)
deriving DecidableEq, Repr

/-- The constructor call of `src/CavosWallet.ts`: identity fields and the
organization secret, with the token triple installed via `setAuthData`
when auth data is supplied. -/
def newCavosWallet (address network email user_id org_id orgSecret : String)
    (authData : Option AuthData) : Wallet :=
  let w : Wallet :=
    ⟨address, network, email, user_id, org_id, none, none, none, orgSecret⟩
  match authData with
  | some a => setAuthData w a
  | none => w

/-- The `AuthData` record `handleLogin` assembles from the parsed
payload; its `org_id` field is read from `userData.authData.id`. -/
def authDataOfUserData (ud : UserData) : AuthData :=
  { accessToken := ud.auth_accessToken
    refreshToken := ud.auth_refreshToken
    expiresIn := ud.auth_expiresIn
    timestamp := ud.auth_timestamp
    user_id := ud.auth_user_id
    email := ud.auth_email
    org_id := ud.auth_id }

/-- `handleLogin` of the Apple login button: fetch the authorization URL
(a non-2xx response throws and reaches the error callback), open the
browser session, and on a success resolution look up `user_data` among
the callback query parameters; a missing parameter, a parse failure, a
cancel resolution and any other resolution type each reach the error
callback with their respective message. -/
def handleLogin (orgToken : String)
    (authUrlFetch : Except (Nat × String) String)
    (browser : BrowserResult)
    (parseUserData : String → Except String UserData) : LoginOutcome :=
  match authUrlFetch with
  | .error (s, t) =>
      .failure ("Failed to get Apple login URL: " ++ toString s ++ " " ++ t)
  | .ok _ =>
      match browser with
      | .success params =>
          match params.lookup "user_data" with
          | some str =>
              match parseUserData str with
              | .ok ud =>
                  .success (newCavosWallet ud.wallet_address ud.wallet_network
                    ud.email ud.user_id ud.org_id orgToken
                    (some (authDataOfUserData ud)))
              | .error m => .failure m
          | none => .failure "No user data received"
      | .cancel => .failure "Authentication cancelled"
      | .other => .failure "Authentication failed"

end Cavos.Login

namespace Cavos

/-- Suspension state of one `getValidAccessToken` task at its only await
point. -/
inductive Phase where
  | awaitingRefresh
  | done (tok : Option String)
deriving DecidableEq, Repr

/-- Synchronous prefix of `getValidAccessToken` up to its only await
point, the refresh fetch: check expiry, and either finish immediately (a
fresh token, or a falsy refresh token that fails the refresh without any
request) or dispatch the refresh request and suspend. -/
def gvatStart (w : Wallet) (now : Int) : Phase × List Req :=
  if isTokenExpired w now then
    if strFalsy w.refreshToken then (.done none, [])
    else (.awaitingRefresh, [Req.refresh w.orgSecret (w.refreshToken.getD "")])
  else (.done w.accessToken, [])

/-- Resumption of a suspended `getValidAccessToken` when its refresh
response arrives: apply the response to the shared instance and yield the
resulting token. -/
def gvatResume (w : Wallet) (env : Env) : Option String × Wallet :=
  let (ok, w2) := applyRefreshResponse w env
  if ok then (w2.accessToken, w2) else (none, w2)

/-- Two operations racing on one instance under the cooperative
single-threaded scheduler: both tasks run their synchronous prefix (the
expiry check and, when expired, the dispatch of the refresh request)
before either refresh response is delivered — the source keeps no
in-flight refresh guard, so the second prefix observes the unmodified
token state — and then the responses are applied in arrival order.
Yields the token each task obtains, the final shared state, and the
concatenated request log. -/
def racingPair (w : Wallet) (envA envB : Env) :
    (Option String × Option String) × Wallet × List Req :=
  match gvatStart w envA.now, gvatStart w envB.now with
  | (.awaitingRefresh, ra), (.awaitingRefresh, rb) =>
      let (ta, w1) := gvatResume w envA
      let (tb, w2) := gvatResume w1 envB
      ((ta, tb), w2, ra ++ rb)
  | (.awaitingRefresh, ra), (.done tb, rb) =>
      let (ta, w1) := gvatResume w envA
      ((ta, tb), w1, ra ++ rb)
  | (.done ta, ra), (.awaitingRefresh, rb) =>
      let (tb, w1) := gvatResume w envB
      ((ta, tb), w1, ra ++ rb)
  | (.done ta, ra), (.done tb, rb) => ((ta, tb), w, ra ++ rb)

end Cavos

namespace Cavos

/-- C1: with a present (non-falsy) access token and a present expiry, the
token counts as expired exactly when `now >= tokenExpiry - 300000`; at the
boundary, expiry `now + 299999` is expired and `now + 300001` is not; and
a missing access token or missing expiry is always expired. -/
theorem C1_isTokenExpired_boundary (a : String) (r : Option String) (e now : Int)
    (ha : a ≠ "") (hnow : 0 ≤ now) :
    (isTokenExpired (withTokens (some a) r (some e)) now
        = decide (now ≥ e - 300000))
    ∧ (∀ r' te, isTokenExpired (withTokens none r' te) now = true)
    ∧ (∀ at' r', isTokenExpired (withTokens at' r' none) now = true)
    ∧ isTokenExpired (withTokens (some a) r (some (now + 299999))) now = true
    ∧ isTokenExpired (withTokens (some a) r (some (now + 300001))) now = false := by
  refine ⟨?_, ?_, ?_, ?_, ?_⟩
  · by_cases he : e = 0
    · subst he
      simp only [isTokenExpired, withTokens, numFalsy, strFalsy]
      simp [ha]
      omega
    · simp only [isTokenExpired, withTokens, numFalsy, strFalsy]
      simp [ha, he]
  · intro r' te
    cases te with
    | none => simp [isTokenExpired, withTokens, numFalsy, strFalsy]
    | some te' => simp [isTokenExpired, withTokens, numFalsy, strFalsy]
  · intro at' r'
    simp [isTokenExpired, withTokens, numFalsy]
  · simp only [isTokenExpired, withTokens, numFalsy, strFalsy]
    have h1 : now + 299999 ≠ 0 := by omega
    simp [ha, h1]
  · simp only [isTokenExpired, withTokens, numFalsy, strFalsy]
    have h1 : now + 300001 ≠ 0 := by omega
    simp [ha, h1]

/-- Witness for C1 at a concrete input. -/
theorem C1_isTokenExpired_boundary_witness :
    isTokenExpired (withTokens (some "tok") none (some (1000000000 + 299999))) 1000000000 = true
    ∧ isTokenExpired (withTokens (some "tok") none (some (1000000000 + 300001))) 1000000000 = false :=
  ⟨(C1_isTokenExpired_boundary "tok" none 0 1000000000 (by decide) (by decide)).2.2.2.1,
   (C1_isTokenExpired_boundary "tok" none 0 1000000000 (by decide) (by decide)).2.2.2.2⟩

/-- A non-expired token state has a non-falsy access token. -/
theorem strFalsy_accessToken_of_not_expired (w : Wallet) (now : Int)
    (h : isTokenExpired w now = false) : strFalsy w.accessToken = false := by
  by_cases hs : strFalsy w.accessToken
  · simp [isTokenExpired, hs] at h
  · exact Bool.not_eq_true _ ▸ (by simpa using hs)

/-- The request log of `refreshAccessToken` is empty or one refresh. -/
theorem refreshAccessToken_reqs_shape (w : Wallet) (env : Env) :
    (refreshAccessToken w env).2.2 = []
    ∨ (refreshAccessToken w env).2.2
        = [Req.refresh w.orgSecret (w.refreshToken.getD "")] := by
  by_cases h : strFalsy w.refreshToken
  · left; simp [refreshAccessToken, h]
  · right; simp [refreshAccessToken, h]

/-- The request log of `getValidAccessToken` is empty or one refresh. -/
theorem getValidAccessToken_reqs_shape (w : Wallet) (env : Env) :
    (getValidAccessToken w env).2.2 = []
    ∨ (getValidAccessToken w env).2.2
        = [Req.refresh w.orgSecret (w.refreshToken.getD "")] := by
  unfold getValidAccessToken
  by_cases hexp : isTokenExpired w env.now
  · rcases hr : refreshAccessToken w env with ⟨ok, w2, reqs⟩
    have hshape := refreshAccessToken_reqs_shape w env
    rw [hr] at hshape
    cases ok <;> simpa [hexp, hr] using hshape
  · simp [hexp]

/-- Every log the shared pre-flight shell produces holds at most one
refresh request, provided the gateway request itself is not a refresh. -/
theorem authedDispatch_refresh_le_one (w : Wallet) (env : Env)
    (http : HttpResult) (mkReq : String → Wallet → Req)
    (hmk : ∀ t w2, Req.isRefresh (mkReq t w2) = false) :
    ((authedDispatch w env http mkReq).2.2).countP (fun r => Req.isRefresh r) ≤ 1 := by
  unfold authedDispatch
  rcases hg : getValidAccessToken w env with ⟨tok, w2, reqs⟩
  have hshape := getValidAccessToken_reqs_shape w env
  rw [hg] at hshape
  simp only at hshape
  by_cases ht : strFalsy tok
  · rcases hshape with h | h <;> subst h <;> simp [ht, Req.isRefresh]
  · have hrt : Req.isRefresh (Req.refresh w.orgSecret (w.refreshToken.getD "")) = true := rfl
    rcases hshape with h | h <;> subst h <;>
      simp [ht, List.countP_append, List.countP_cons, List.countP_nil, hmk, hrt]

/-- When the token is expired and the single refresh attempt fails, the
shared pre-flight shell yields the authentication-required error and
its log holds no gateway request. -/
theorem authedDispatch_auth_fail (w : Wallet) (env : Env)
    (http : HttpResult) (mkReq : String → Wallet → Req)
    (hexp : isTokenExpired w env.now = true)
    (hfail : (refreshAccessToken w env).1 = false) :
    (authedDispatch w env http mkReq).1
        = .error "Authentication required. Please login again."
    ∧ ((authedDispatch w env http mkReq).2.2).all (fun r => Req.isRefresh r) = true := by
  unfold authedDispatch getValidAccessToken
  rcases hr : refreshAccessToken w env with ⟨ok, w2, reqs⟩
  rw [hr] at hfail
  simp only at hfail
  subst hfail
  have hshape := refreshAccessToken_reqs_shape w env
  rw [hr] at hshape
  rcases hshape with h | h <;> simp_all [hexp, hr, strFalsy, Req.isRefresh]

/-- C2: with an expired token state, each of `execute`, `executeCalls`
and `swap` performs at most one refresh attempt in its call, and when
that refresh attempt fails each returns the authentication-required
error value with no gateway request dispatched. -/
theorem C2_expired_single_refresh_short_circuit (w : Wallet) (env : Env)
    (ca ep : String) (cd : List String) (calls : List Call)
    (amt : Int) (stk btk : String)
    (hexp : isTokenExpired w env.now = true) :
    ((execute w env ca ep cd).2.2.countP (fun r => Req.isRefresh r) ≤ 1
      ∧ (executeCalls w env calls).2.2.countP (fun r => Req.isRefresh r) ≤ 1
      ∧ (swap w env amt stk btk).2.2.countP (fun r => Req.isRefresh r) ≤ 1)
    ∧ ((refreshAccessToken w env).1 = false →
        ((execute w env ca ep cd).1
            = .error "Authentication required. Please login again."
          ∧ (execute w env ca ep cd).2.2.all (fun r => Req.isRefresh r) = true)
        ∧ ((executeCalls w env calls).1
            = .error "Authentication required. Please login again."
          ∧ (executeCalls w env calls).2.2.all (fun r => Req.isRefresh r) = true)
        ∧ ((swap w env amt stk btk).1
            = .error "Authentication required. Please login again."
          ∧ (swap w env amt stk btk).2.2.all (fun r => Req.isRefresh r) = true)) := by
  refine ⟨⟨?_, ?_, ?_⟩, fun hfail => ⟨?_, ?_, ?_⟩⟩
  · exact authedDispatch_refresh_le_one w env env.execHttp _ (fun t w2 => rfl)
  · exact authedDispatch_refresh_le_one w env env.execHttp _ (fun t w2 => rfl)
  · exact authedDispatch_refresh_le_one w env env.swapHttp _ (fun t w2 => rfl)
  · exact authedDispatch_auth_fail w env env.execHttp _ hexp hfail
  · exact authedDispatch_auth_fail w env env.execHttp _ hexp hfail
  · exact authedDispatch_auth_fail w env env.swapHttp _ hexp hfail

/-- Witness for C2: an expired, refresh-failing state at which all six
conclusions evaluate as stated. -/
theorem C2_expired_single_refresh_short_circuit_witness :
    (execute (withTokens (some "tok") (some "rt") (some 1000))
        ⟨2000000, .absent, false, false, none, .ok "0xh", .ok "0xh"⟩
        "0xc" "transfer" ["0xr", "1"]).1
      = .error "Authentication required. Please login again." :=
  (((C2_expired_single_refresh_short_circuit
      (withTokens (some "tok") (some "rt") (some 1000))
      ⟨2000000, .absent, false, false, none, .ok "0xh", .ok "0xh"⟩
      "0xc" "transfer" ["0xr", "1"] [] 1 "0xs" "0xb"
      (by decide)).2 (by decide)).1).1

/-- C3: with a valid (non-expired) token state, `execute` maps a non-2xx
gateway response with status `s` and body `t` to the error value
`Error executing calls: s t`, and a 2xx response carrying the nested
transaction hash to that hash. -/
theorem C3_execute_gateway_normalization (w : Wallet) (env : Env)
    (ca ep : String) (cd : List String) (s : Nat) (t h : String)
    (hfresh : isTokenExpired w env.now = false) :
    (env.execHttp = .httpError s t →
      (execute w env ca ep cd).1
        = .error ("Error executing calls: " ++ toString s ++ " " ++ t))
    ∧ (env.execHttp = .ok h → (execute w env ca ep cd).1 = .txHash h) := by
  have htok := strFalsy_accessToken_of_not_expired w env.now hfresh
  constructor <;> intro hh <;>
    simp [execute, authedDispatch, getValidAccessToken, hfresh, htok, hh,
      dispatchOutcome]

/-- Witness for C3: HTTP 500 with body boom yields the documented error,
and a 2xx response yields the hash. -/
theorem C3_execute_gateway_normalization_witness :
    ((execute (withTokens (some "tok") (some "rt") (some 2000000))
        ⟨1000000, .absent, false, false, none, .httpError 500 "boom", .ok "0xh"⟩
        "0xc" "transfer" ["0xr", "1"]).1
      = .error "Error executing calls: 500 boom")
    ∧ ((execute (withTokens (some "tok") (some "rt") (some 2000000))
        ⟨1000000, .absent, false, false, none, .ok "0xdead", .ok "0xh"⟩
        "0xc" "transfer" ["0xr", "1"]).1
      = .txHash "0xdead") :=
  ⟨(C3_execute_gateway_normalization
      (withTokens (some "tok") (some "rt") (some 2000000))
      ⟨1000000, .absent, false, false, none, .httpError 500 "boom", .ok "0xh"⟩
      "0xc" "transfer" ["0xr", "1"] 500 "boom" "0xdead" (by decide)).1 rfl,
   (C3_execute_gateway_normalization
      (withTokens (some "tok") (some "rt") (some 2000000))
      ⟨1000000, .absent, false, false, none, .ok "0xdead", .ok "0xh"⟩
      "0xc" "transfer" ["0xr", "1"] 500 "boom" "0xdead" (by decide)).2 rfl⟩

/-- C4 (code bug): with no in-memory access token and a stored record
whose token expired long ago (issued at timestamp 0 with one hour of
validity, queried at one million seconds), `isAuthenticated` resolves to
true on the mere fact that the record loads, while the very state the
load installs is already expired, so the claimed freshness condition is
violated. -/
theorem C4_isAuthenticated_ignores_stored_freshness :
    (isAuthenticated (withTokens none none none)
        ⟨1000000000, .valid ⟨"at", "rt", 3600, 0, "u", "e", "o"⟩,
          false, false, none, .ok "0xh", .ok "0xh"⟩).1 = true
    ∧ isTokenExpired
        (isAuthenticated (withTokens none none none)
          ⟨1000000000, .valid ⟨"at", "rt", 3600, 0, "u", "e", "o"⟩,
            false, false, none, .ok "0xh", .ok "0xh"⟩).2
        1000000000 = true := by
  exact ⟨rfl, by decide⟩

/-- C5 (code bug): with an expired token and a pending refresh, two
operations racing on one instance both dispatch a refresh request — the
request log of the canonical racing schedule holds two refresh calls,
both carrying the same single-use refresh token R1, not the one call the
claim requires. -/
theorem C5_racing_double_refresh :
    (racingPair (withTokens (some "tok") (some "R1") (some 1000))
        ⟨10000000, .absent, false, false,
          some ⟨"at2", "R2", 3600, "u", "e", "o"⟩, .ok "0xh", .ok "0xh"⟩
        ⟨10000000, .absent, false, false, none, .ok "0xh", .ok "0xh"⟩).2.2
      = [Req.refresh "org-secret" "R1", Req.refresh "org-secret" "R1"]
    ∧ ((racingPair (withTokens (some "tok") (some "R1") (some 1000))
        ⟨10000000, .absent, false, false,
          some ⟨"at2", "R2", 3600, "u", "e", "o"⟩, .ok "0xh", .ok "0xh"⟩
        ⟨10000000, .absent, false, false, none, .ok "0xh", .ok "0xh"⟩).2.2).countP
          (fun r => Req.isRefresh r) = 2 := by
  exact ⟨by decide, by decide⟩

/-- C6: when `bioAuth` is requested and the biometric capability reports
missing hardware or no enrollment, `execute` of the biometric revision
returns the no-biometric-authentication error with the state unchanged
and an empty request log: neither the refresh endpoint nor the execute
endpoint is contacted. -/
theorem C6_bioAuth_gate_short_circuit (w : V1.Wallet) (env : V1.Env)
    (ca ep : String) (cd : List String)
    (hbio : env.hasHardware = false ∨ env.isEnrolled = false) :
    V1.execute w env ca ep cd true
      = (.error "No biometric authentication available", w, []) := by
  rcases hbio with h | h <;>
    simp [V1.execute, V1.requireBiometricAuth, V1.strOr, h]

/-- Witness for C6 at a concrete unenrolled environment. -/
theorem C6_bioAuth_gate_short_circuit_witness :
    V1.execute ⟨"0xaddr", "sepolia", "e", "u", "o", "at", "rt", "sec"⟩
        ⟨true, false, true, some ("at2", "rt2"), .ok "0xh", .ok "0xh"⟩
        "0xc" "transfer" ["0xr"] true
      = (.error "No biometric authentication available",
          ⟨"0xaddr", "sepolia", "e", "u", "o", "at", "rt", "sec"⟩, []) :=
  C6_bioAuth_gate_short_circuit
    ⟨"0xaddr", "sepolia", "e", "u", "o", "at", "rt", "sec"⟩
    ⟨true, false, true, some ("at2", "rt2"), .ok "0xh", .ok "0xh"⟩
    "0xc" "transfer" ["0xr"] (Or.inr rfl)

/-- C7: after a successful authorization-URL fetch, every non-success
browser outcome reaches the error callback and never the success
callback: a success resolution whose callback URL carries no `user_data`
parameter yields `No user data received`, a cancel resolution yields
`Authentication cancelled`, and any other resolution type yields
`Authentication failed`. -/
theorem C7_login_error_channel (orgToken u : String)
    (params : List (String × String))
    (parse : String → Except String Login.UserData)
    (hnone : params.lookup "user_data" = none) :
    Login.handleLogin orgToken (.ok u) (.success params) parse
        = .failure "No user data received"
    ∧ Login.handleLogin orgToken (.ok u) .cancel parse
        = .failure "Authentication cancelled"
    ∧ Login.handleLogin orgToken (.ok u) .other parse
        = .failure "Authentication failed" := by
  refine ⟨?_, rfl, rfl⟩
  simp [Login.handleLogin, hnone]

/-- Witness for C7 at a concrete callback with no `user_data`. -/
theorem C7_login_error_channel_witness :
    Login.handleLogin "org" (.ok "https://auth.example")
        (.success [("code", "abc")]) (fun _ => .error "bad json")
      = .failure "No user data received"
    ∧ Login.handleLogin "org" (.ok "https://auth.example")
        .cancel (fun _ => .error "bad json")
      = .failure "Authentication cancelled" :=
  ⟨(C7_login_error_channel "org" "https://auth.example" [("code", "abc")]
      (fun _ => .error "bad json") (by decide)).1,
   (C7_login_error_channel "org" "https://auth.example" [("code", "abc")]
      (fun _ => .error "bad json") (by decide)).2.1⟩

/-- C8 (code bug): `toJSON` of the biometric revision includes the
organization secret and the access token, so two instances that differ
only in `orgSecret` serialize to different values and the secret is read
off the serialization. -/
theorem C8_toJSON_leaks_orgSecret :
    V1.toJSON ⟨"0xaddr", "sepolia", "e", "u", "o", "at", "rt", "secret-1"⟩
      ≠ V1.toJSON ⟨"0xaddr", "sepolia", "e", "u", "o", "at", "rt", "secret-2"⟩
    ∧ (V1.toJSON ⟨"0xaddr", "sepolia", "e", "u", "o", "at", "rt", "secret-1"⟩).orgSecret
        = "secret-1"
    ∧ (V1.toJSON ⟨"0xaddr", "sepolia", "e", "u", "o", "at", "rt", "secret-1"⟩).accessToken
        = "at" := by
  exact ⟨by decide, rfl, rfl⟩

/-- `setAuthData` only touches the token fields. -/
theorem identityOf_setAuthData (w : Wallet) (a : AuthData) :
    identityOf (setAuthData w a) = identityOf w := rfl

/-- Applying a refresh response only touches the token fields. -/
theorem identityOf_applyRefreshResponse (w : Wallet) (env : Env) :
    identityOf (applyRefreshResponse w env).2 = identityOf w := by
  unfold applyRefreshResponse storeAuthData
  cases env.refreshHttp with
  | none => rfl
  | some r => by_cases h : env.storeThrows <;> simp [h, identityOf_setAuthData]

/-- `refreshAccessToken` only touches the token fields. -/
theorem identityOf_refreshAccessToken (w : Wallet) (env : Env) :
    identityOf (refreshAccessToken w env).2.1 = identityOf w := by
  unfold refreshAccessToken
  by_cases h : strFalsy w.refreshToken
  · simp [h]
  · rcases ha : applyRefreshResponse w env with ⟨ok, w2⟩
    have hid := identityOf_applyRefreshResponse w env
    rw [ha] at hid
    simp only at hid
    simp [h, ha, hid]

/-- `getValidAccessToken` only touches the token fields. -/
theorem identityOf_getValidAccessToken (w : Wallet) (env : Env) :
    identityOf (getValidAccessToken w env).2.1 = identityOf w := by
  unfold getValidAccessToken
  by_cases hexp : isTokenExpired w env.now
  · rcases hr : refreshAccessToken w env with ⟨ok, w2, reqs⟩
    have hid := identityOf_refreshAccessToken w env
    rw [hr] at hid
    simp only at hid
    cases ok <;> simp [hexp, hr, hid]
  · simp [hexp]

/-- The shared pre-flight shell only touches the token fields. -/
theorem identityOf_authedDispatch (w : Wallet) (env : Env)
    (http : HttpResult) (mkReq : String → Wallet → Req) :
    identityOf (authedDispatch w env http mkReq).2.1 = identityOf w := by
  unfold authedDispatch
  rcases hg : getValidAccessToken w env with ⟨tok, w2, reqs⟩
  have hid := identityOf_getValidAccessToken w env
  rw [hg] at hid
  simp only at hid
  by_cases ht : strFalsy tok <;> simp [ht, hid]

/-- `loadStoredAuthData` only touches the token fields. -/
theorem identityOf_loadStoredAuthData (w : Wallet) (env : Env) :
    identityOf (loadStoredAuthData w env).2 = identityOf w := by
  unfold loadStoredAuthData
  cases env.stored <;> rfl

/-- C9 (amended): when the persisted-record deletion does not throw,
`logout` sets all three token fields to absent; in every environment —
a throwing deletion included — the identity fields survive `logout`,
`loadStoredAuthData`, `refreshAccessToken`, `getValidAccessToken`,
`execute`, `executeCalls`, `swap`, `isAuthenticated` and a successful
`setAuthenticationData` unchanged. -/
theorem C9_logout_clears_tokens_identity_frame (w : Wallet) (env : Env)
    (a : AuthData) (ca ep : String) (cd : List String) (calls : List Call)
    (amt : Int) (stk btk : String) :
    (env.deleteThrows = false →
      (logout w env).accessToken = none
      ∧ (logout w env).refreshToken = none
      ∧ (logout w env).tokenExpiry = none)
    ∧ identityOf (logout w env) = identityOf w
    ∧ identityOf (loadStoredAuthData w env).2 = identityOf w
    ∧ identityOf (refreshAccessToken w env).2.1 = identityOf w
    ∧ identityOf (getValidAccessToken w env).2.1 = identityOf w
    ∧ identityOf (execute w env ca ep cd).2.1 = identityOf w
    ∧ identityOf (executeCalls w env calls).2.1 = identityOf w
    ∧ identityOf (swap w env amt stk btk).2.1 = identityOf w
    ∧ identityOf (isAuthenticated w env).2 = identityOf w
    ∧ (∀ w2, setAuthenticationData w env a = .ok w2 →
        identityOf w2 = identityOf w) := by
  refine ⟨fun hdel => ⟨?_, ?_, ?_⟩, ?_, identityOf_loadStoredAuthData w env,
    identityOf_refreshAccessToken w env, identityOf_getValidAccessToken w env,
    identityOf_authedDispatch w env _ _, identityOf_authedDispatch w env _ _,
    identityOf_authedDispatch w env _ _, ?_, ?_⟩
  · simp [logout, hdel]
  · simp [logout, hdel]
  · simp [logout, hdel]
  · by_cases h : env.deleteThrows <;> simp [logout, h, identityOf]
  · unfold isAuthenticated
    by_cases h : strFalsy w.accessToken
    · simp [h, identityOf_loadStoredAuthData]
    · simp [h]
  · intro w2 hset
    unfold setAuthenticationData storeAuthData at hset
    by_cases h : env.storeThrows
    · simp [h] at hset
    · simp [h] at hset
      rw [← hset]
      exact identityOf_setAuthData w a

/-- Counterexample for C9 as stated: when the persisted-record deletion
throws, `logout` leaves all three token fields set. -/
theorem C9_logout_counterexample :
    (logout (withTokens (some "at") (some "rt") (some 1000))
        ⟨0, .absent, false, true, none, .ok "0xh", .ok "0xh"⟩).accessToken
      = some "at"
    ∧ (logout (withTokens (some "at") (some "rt") (some 1000))
        ⟨0, .absent, false, true, none, .ok "0xh", .ok "0xh"⟩).refreshToken
      = some "rt"
    ∧ (logout (withTokens (some "at") (some "rt") (some 1000))
        ⟨0, .absent, false, true, none, .ok "0xh", .ok "0xh"⟩).tokenExpiry
      = some 1000 := ⟨rfl, rfl, rfl⟩

/-- Witness for C9: the clearing conjunct at a concrete non-throwing
environment and the identity frame at a concrete throwing one. -/
theorem C9_logout_clears_tokens_identity_frame_witness :
    (logout (withTokens (some "at") (some "rt") (some 1000))
        ⟨0, .absent, false, false, none, .ok "0xh", .ok "0xh"⟩).accessToken
      = none
    ∧ identityOf (logout (withTokens (some "at") (some "rt") (some 1000))
        ⟨0, .absent, false, true, none, .ok "0xh", .ok "0xh"⟩)
      = identityOf (withTokens (some "at") (some "rt") (some 1000)) :=
  ⟨(((C9_logout_clears_tokens_identity_frame
      (withTokens (some "at") (some "rt") (some 1000))
      ⟨0, .absent, false, false, none, .ok "0xh", .ok "0xh"⟩
      ⟨"a", "r", 1, 0, "u", "e", "o"⟩ "0xc" "t" [] [] 1 "0xs" "0xb").1 rfl).1),
   (C9_logout_clears_tokens_identity_frame
      (withTokens (some "at") (some "rt") (some 1000))
      ⟨0, .absent, false, true, none, .ok "0xh", .ok "0xh"⟩
      ⟨"a", "r", 1, 0, "u", "e", "o"⟩ "0xc" "t" [] [] 1 "0xs" "0xb").2.1⟩

/-- C10: the `isAuthenticated` field of `getWalletInfo` is the strict
null test on the in-memory access token for every state, and is
insensitive to the expiry field; in particular a wallet whose access
token is present but past its expiry reports true there while
`isAuthenticated()` resolves to false. -/
theorem C10_getWalletInfo_strict_null (w : Wallet) (env : Env)
    (a : String) (e : Int)
    (ha : w.accessToken = some a) (hne : a ≠ "")
    (hte : w.tokenExpiry = some e) (hexp : env.now ≥ e - 300000) :
    (∀ w' : Wallet, (getWalletInfo w').isAuthenticated = w'.accessToken.isSome)
    ∧ (∀ (w' : Wallet) (te' : Option Int),
        getWalletInfo { w' with tokenExpiry := te' } = getWalletInfo w')
    ∧ (getWalletInfo w).isAuthenticated = true
    ∧ (isAuthenticated w env).1 = false := by
  refine ⟨fun w' => rfl, fun w' te' => rfl, ?_, ?_⟩
  · simp [getWalletInfo, ha]
  · by_cases he : e = 0
    · simp [isAuthenticated, strFalsy, ha, hne, isTokenExpired, numFalsy, hte, he]
    · simp [isAuthenticated, strFalsy, ha, hne, isTokenExpired, numFalsy, hte,
        he, hexp]

/-- Witness for C10: a present but expired token reports authenticated in
`getWalletInfo` while `isAuthenticated` resolves to false. -/
theorem C10_getWalletInfo_strict_null_witness :
    (getWalletInfo (withTokens (some "tok") (some "rt") (some 1000))).isAuthenticated
      = true
    ∧ (isAuthenticated (withTokens (some "tok") (some "rt") (some 1000))
        ⟨10000000, .absent, false, false, none, .ok "0xh", .ok "0xh"⟩).1
      = false :=
  ⟨(C10_getWalletInfo_strict_null
      (withTokens (some "tok") (some "rt") (some 1000))
      ⟨10000000, .absent, false, false, none, .ok "0xh", .ok "0xh"⟩
      "tok" 1000 rfl (by decide) rfl (by decide)).2.2.1,
   (C10_getWalletInfo_strict_null
      (withTokens (some "tok") (some "rt") (some 1000))
      ⟨10000000, .absent, false, false, none, .ok "0xh", .ok "0xh"⟩
      "tok" 1000 rfl (by decide) rfl (by decide)).2.2.2⟩

end Cavos
